import Mathlib

/-!
# Folder-to-team resolution (`go/git/teamer.go`)

A shallow embedding of `TeamerImpl.LookupOrCreate`, `TeamerImpl.lookupTeam` and
`TeamerImpl.lookupOrCreateImplicitTeam`, followed by theorems about them.

The three methods call five things that live outside the file:
`libkb.ParseTeamPrivateKBFSPath`, `teams.Load`, `libkb.ParseImplicitTeamTLFName`,
`teams.FormatImplicitTeamDisplayName` and `teams.LookupOrCreateImplicitTeam`.
They are taken as arbitrary functions of a collaborator state `σ` (each may
read and change it) that either fail with an error of type `ε` or return a
value.  Every call the embedding makes is appended to a call record, in
program order, so that "this collaborator was not invoked" is a statement
about the record.

The deferred `CTrace` call only logs and is not part of the embedding.
-/

namespace Git

/-- Team identifier (`keybase1.TeamID`, a string type). -/
abbrev TeamID := String

/-- Modelled from the spec: `keybase1.FolderType` is declared in the protocol
package, which is not among the sources. It is an integer enumeration, so a
value outside the named constants can reach the `default` arm of the switch. -/
abbrev FolderType := Int

/-- Modelled from the spec: the constant `keybase1.FolderType_PRIVATE`; the
number is the one of the protocol enumeration, and the three constants only
need to be distinct (Go rejects a switch with duplicate cases). -/
def FolderType_PRIVATE : FolderType := 1

/-- Modelled from the spec: the constant `keybase1.FolderType_PUBLIC`. -/
def FolderType_PUBLIC : FolderType := 2

/-- Modelled from the spec: the constant `keybase1.FolderType_TEAM`. -/
def FolderType_TEAM : FolderType := 3

/-- Modelled from the spec: `keybase1.TLFVisibility`, of which the code uses
the two constants `TLFVisibility_PRIVATE` and `TLFVisibility_PUBLIC`. -/
inductive TLFVisibility where
  | PRIVATE
  | PUBLIC
  deriving DecidableEq, Repr

/-- The fields of `keybase1.Folder` that the code reads. -/
structure Folder where
  Name : String
  Private : Bool
  FolderType : FolderType
  deriving DecidableEq, Repr

/-- The result type `keybase1.TeamIDWithVisibility`. -/
structure TeamIDWithVisibility where
  TeamID : TeamID
  Visibility : TLFVisibility
  deriving DecidableEq, Repr

/-- The fields of `keybase1.LoadTeamArg` that `lookupTeam` sets; every other
field keeps its zero value. -/
structure LoadTeamArg where
  Name : String
  ForceRepoll : Bool
  deriving DecidableEq, Repr

/-- What `lookupTeam` reads of a loaded `teams.Team`: the field `ID` and the
value of the method `IsPublic()`. -/
structure Team where
  ID : TeamID
  IsPublic : Bool
  deriving DecidableEq, Repr

/-- An argument handed to `fmt.Errorf` for a `%v` verb. -/
inductive FmtArg where
  | bool (b : Bool)
  | folderType (t : FolderType)
  deriving DecidableEq, Repr

/-- An error returned by the resolver: either one it builds itself with
`fmt.Errorf` (format string and arguments as written in the source), or an
error of a collaborator handed back as it came (`return res, err`). -/
inductive TeamerError (ε : Type) where
  | errorf (format : String) (args : List FmtArg)
  | collaborator (e : ε)
  deriving DecidableEq, Repr

/-- One recorded call of a collaborator, with the arguments it was given.
`N` is the type of parsed team names, `A` the type of parsed implicit-team
names. -/
inductive Call (N A : Type) where
  | parseTeamPrivateKBFSPath (name : String)
  | load (arg : LoadTeamArg)
  | parseImplicitTeamTLFName (name : String)
  | formatImplicitTeamDisplayName (impName : A)
  | lookupOrCreateImplicitTeam (lookupName : String) (isPublic : Bool)
  deriving DecidableEq, Repr

/-- The collaborators of the resolver. Each takes the collaborator state and
returns its outcome with the state after the call. `teamNameString` is the
method `String()` of a parsed team name. `LookupOrCreateImplicitTeam` returns
a second value in Go, which the code discards. -/
structure Collaborators (σ ε N A : Type) where
  ParseTeamPrivateKBFSPath : σ → String → Except ε N × σ
  teamNameString : N → String
  Load : σ → LoadTeamArg → Except ε Team × σ
  ParseImplicitTeamTLFName : σ → String → Except ε A × σ
  FormatImplicitTeamDisplayName : σ → A → Except ε String × σ
  LookupOrCreateImplicitTeam : σ → String → Bool → Except ε TeamID × σ

/-- The collaborator state together with the record of calls made so far. -/
structure World (σ N A : Type) where
  state : σ
  calls : List (Call N A)

/-- The world after a collaborator call: its new state, and the call appended
to the record. -/
def World.record {σ N A : Type} (w : World σ N A) (s : σ) (c : Call N A) : World σ N A :=
  { state := s, calls := w.calls ++ [c] }

/-- Outcome of a resolver method: the Go pair `(res, err)` as a sum, with the
world it leaves behind. -/
abbrev Outcome (σ ε N A : Type) := Except (TeamerError ε) TeamIDWithVisibility × World σ N A

/-- The method `TeamerImpl.lookupTeam`. -/
def lookupTeam {σ ε N A : Type} (c : Collaborators σ ε N A) (folder : Folder)
    (w : World σ N A) : Outcome σ ε N A :=
  if !folder.Private then
    (.error (.errorf "public team git repos not supported" []), w)
  else
    match c.ParseTeamPrivateKBFSPath w.state folder.Name with
    | (.error err, s1) =>
      (.error (.collaborator err), w.record s1 (.parseTeamPrivateKBFSPath folder.Name))
    | (.ok teamName, s1) =>
      let w1 := w.record s1 (.parseTeamPrivateKBFSPath folder.Name)
      let arg : LoadTeamArg := { Name := c.teamNameString teamName, ForceRepoll := false }
      match c.Load w1.state arg with
      | (.error err, s2) => (.error (.collaborator err), w1.record s2 (.load arg))
      | (.ok team, s2) =>
        let w2 := w1.record s2 (.load arg)
        if folder.Private == team.IsPublic then
          (.error (.errorf "team publicity mismatch folder:%v != team:%v"
            [.bool (!folder.Private), .bool team.IsPublic]), w2)
        else
          let visibility :=
            if !folder.Private then TLFVisibility.PUBLIC else TLFVisibility.PRIVATE
          (.ok { TeamID := team.ID, Visibility := visibility }, w2)

/-- The method `TeamerImpl.lookupOrCreateImplicitTeam`. -/
def lookupOrCreateImplicitTeam {σ ε N A : Type} (c : Collaborators σ ε N A) (folder : Folder)
    (w : World σ N A) : Outcome σ ε N A :=
  let visibility := if !folder.Private then TLFVisibility.PUBLIC else TLFVisibility.PRIVATE
  match c.ParseImplicitTeamTLFName w.state folder.Name with
  | (.error err, s1) =>
    (.error (.collaborator err), w.record s1 (.parseImplicitTeamTLFName folder.Name))
  | (.ok impName, s1) =>
    let w1 := w.record s1 (.parseImplicitTeamTLFName folder.Name)
    match c.FormatImplicitTeamDisplayName w1.state impName with
    | (.error err, s2) =>
      (.error (.collaborator err), w1.record s2 (.formatImplicitTeamDisplayName impName))
    | (.ok lookupName, s2) =>
      let w2 := w1.record s2 (.formatImplicitTeamDisplayName impName)
      let isPublic := !folder.Private
      match c.LookupOrCreateImplicitTeam w2.state lookupName isPublic with
      | (.error err, s3) =>
        (.error (.collaborator err), w2.record s3 (.lookupOrCreateImplicitTeam lookupName isPublic))
      | (.ok teamID, s3) =>
        (.ok { TeamID := teamID, Visibility := visibility },
          w2.record s3 (.lookupOrCreateImplicitTeam lookupName isPublic))

/-- The method `TeamerImpl.LookupOrCreate`: the switch on the folder type. -/
def LookupOrCreate {σ ε N A : Type} (c : Collaborators σ ε N A) (folder : Folder)
    (w : World σ N A) : Outcome σ ε N A :=
  if folder.FolderType = FolderType_PRIVATE then
    if !folder.Private then
      (.error (.errorf "folder type PRIVATE but private bit is false" []), w)
    else lookupOrCreateImplicitTeam c folder w
  else if folder.FolderType = FolderType_PUBLIC then
    if folder.Private then
      (.error (.errorf "folder type PUBLIC but private bit is true" []), w)
    else lookupOrCreateImplicitTeam c folder w
  else if folder.FolderType = FolderType_TEAM then
    lookupTeam c folder w
  else
    (.error (.errorf "unrecognized folder type: %v" [.folderType folder.FolderType]), w)

/-- How `%v` prints an argument: a boolean as `true` or `false`, a folder type
through its `String()` method, which is declared outside the sources and is
the parameter `folderTypeString`. -/
def FmtArg.render (folderTypeString : FolderType → String) : FmtArg → String
  | .bool true => "true"
  | .bool false => "false"
  | .folderType t => folderTypeString t

/-- The part of `fmt.Sprintf` the code uses: each `%v` is replaced by the next
argument, every other character is copied. -/
def sprintf (render : FmtArg → String) : List Char → List FmtArg → List Char
  | '%' :: 'v' :: rest, a :: args => (render a).data ++ sprintf render rest args
  | ch :: rest, args => ch :: sprintf render rest args
  | [], _ => []

/-- The text of an error the resolver built itself (`Error()` of the value made
by `fmt.Errorf`); a collaborator error has a text of its own, not modelled. -/
def TeamerError.message {ε : Type} (folderTypeString : FolderType → String) :
    TeamerError ε → Option String
  | .errorf format args => some (String.mk (sprintf (FmtArg.render folderTypeString) format.data args))
  | .collaborator _ => none

/-- The calls a method made, when it is started with an empty record. -/
def callsOf {σ ε N A : Type} (run : World σ N A → Outcome σ ε N A) (s : σ) : List (Call N A) :=
  (run { state := s, calls := [] }).2.calls

/-- Whether a recorded call is a call of the team loader. -/
def Call.isLoad {N A : Type} : Call N A → Bool
  | .load _ => true
  | _ => false

/-- A deterministic stand-in for the collaborators, used to run the resolver on
concrete folders. The state counts the calls served. Team paths and implicit
names are accepted unless empty; the loader knows the private team `team1`
and the public team `open`; the formatter rejects the name `#bad`; the
implicit-team service is unreachable for the name `offline`. -/
def fakeCollaborators : Collaborators Nat String String String where
  ParseTeamPrivateKBFSPath := fun s name =>
    if name = "" then (.error "bad team path", s + 1) else (.ok name, s + 1)
  teamNameString := fun n => n
  Load := fun s arg =>
    if arg.Name = "team1" then (.ok { ID := "X", IsPublic := false }, s + 1)
    else if arg.Name = "open" then (.ok { ID := "P", IsPublic := true }, s + 1)
    else (.error "team not found", s + 1)
  ParseImplicitTeamTLFName := fun s name =>
    if name = "" then (.error "bad implicit name", s + 1) else (.ok name, s + 1)
  FormatImplicitTeamDisplayName := fun s impName =>
    if impName = "#bad" then (.error "cannot format", s + 1) else (.ok impName, s + 1)
  LookupOrCreateImplicitTeam := fun s lookupName isPublic =>
    if lookupName = "offline" then (.error "no network", s + 1)
    else (.ok (if isPublic then "Ypub" else "Y"), s + 1)

/-- The world before any call: state `0`, empty record. -/
def emptyWorld : World Nat String String := { state := 0, calls := [] }

/-- The text of the error of an outcome, if it failed with an error the
resolver built itself. -/
def errorText {ε α : Type} (folderTypeString : FolderType → String) :
    Except (TeamerError ε) α → Option String
  | .error e => e.message folderTypeString
  | .ok _ => none

/-- Whether a recorded call belongs to the explicit-team path: the team-path
parser or the team loader. -/
def Call.isTeamPath {N A : Type} : Call N A → Bool
  | .parseTeamPrivateKBFSPath _ => true
  | .load _ => true
  | _ => false

/-- Whether a recorded call belongs to the implicit-team path: the implicit-name
parser, the formatter or lookup-or-create. -/
def Call.isImplicit {N A : Type} : Call N A → Bool
  | .parseImplicitTeamTLFName _ => true
  | .formatImplicitTeamDisplayName _ => true
  | .lookupOrCreateImplicitTeam _ _ => true
  | _ => false

/-- Modelled from the spec: the state of a lookup-or-create fake that counts
creations. `teams` holds the implicit teams that exist, keyed by canonical
name and publicness; `creations` is the number of teams the fake has
created. The real `teams.LookupOrCreateImplicitTeam` is not among the
sources. -/
structure ImplicitTeams where
  teams : List ((String × Bool) × TeamID)
  creations : Nat
  deriving DecidableEq, Repr

/-- Modelled from the spec: the lookup-or-create fake, idempotent per pair of
canonical name and publicness. A pair that has a team gets that team back
and nothing changes; a pair that has none gets a new team, which is stored,
and the creation counter goes up by one. -/
def ImplicitTeams.lookupOrCreate (newID : Nat → TeamID) (t : ImplicitTeams)
    (lookupName : String) (isPublic : Bool) : TeamID × ImplicitTeams :=
  match t.teams.lookup (lookupName, isPublic) with
  | some teamID => (teamID, t)
  | none =>
    (newID t.creations,
      { teams := ((lookupName, isPublic), newID t.creations) :: t.teams,
        creations := t.creations + 1 })

/-- Modelled from the spec: collaborators whose implicit-team side is a parser
and a formatter without state (the same name always parses and formats the
same way) and the counting lookup-or-create fake. The explicit-team side is
that of `base`. -/
def countingFake {ε N A : Type} (base : Collaborators ImplicitTeams ε N A)
    (parse : String → Except ε A) (format : A → Except ε String) (newID : Nat → TeamID) :
    Collaborators ImplicitTeams ε N A :=
  { base with
    ParseImplicitTeamTLFName := fun s name => (parse name, s)
    FormatImplicitTeamDisplayName := fun s impName => (format impName, s)
    LookupOrCreateImplicitTeam := fun s lookupName isPublic =>
      (.ok (s.lookupOrCreate newID lookupName isPublic).1,
        (s.lookupOrCreate newID lookupName isPublic).2) }

/-- An explicit-team side that knows no team, over the state of the counting
fake. Its implicit-team side is never used: `countingFake` replaces it. -/
def noTeams : Collaborators ImplicitTeams String String String where
  ParseTeamPrivateKBFSPath := fun s name => (.ok name, s)
  teamNameString := fun n => n
  Load := fun s _ => (.error "team not found", s)
  ParseImplicitTeamTLFName := fun s _ => (.error "unused", s)
  FormatImplicitTeamDisplayName := fun s _ => (.error "unused", s)
  LookupOrCreateImplicitTeam := fun s _ _ => (.error "unused", s)

/-- A concrete counting fake: every name parses and formats to itself, and the
first team created is `T0`. -/
def countingFakeExample : Collaborators ImplicitTeams String String String :=
  countingFake noTeams (fun name => .ok name) (fun impName => .ok impName)
    (fun n => if n = 0 then "T0" else "T1")

/-- The stand-in collaborators with another explicit-team side: the team-path
parser rejects every name and the loader knows no team. -/
def fakeOtherTeamSide : Collaborators Nat String String String :=
  { fakeCollaborators with
    ParseTeamPrivateKBFSPath := fun s _ => (.error "no team paths", s + 10)
    teamNameString := fun _ => "?"
    Load := fun s _ => (.error "no teams", s + 10) }

/-- The stand-in collaborators with another implicit-team side: the parser
rejects every name, the formatter fails, and lookup-or-create would hand out
the team `Z`. -/
def fakeOtherImplicitSide : Collaborators Nat String String String :=
  { fakeCollaborators with
    ParseImplicitTeamTLFName := fun s _ => (.error "no implicit names", s + 10)
    FormatImplicitTeamDisplayName := fun s _ => (.error "no format", s + 10)
    LookupOrCreateImplicitTeam := fun s _ _ => (.ok "Z", s + 10) }

end Git

namespace Git

variable {σ ε N A : Type}

/-! ## The switch on the folder type -/

/-- C1: a folder of type PRIVATE whose private bit is false, and a folder of
type PUBLIC whose private bit is true, are refused with the consistency error
of their case, whatever the name and the collaborators; the world comes back
as it was, so no collaborator was called and none saw its state change. The
texts of the two errors are the ones written in the source. -/
theorem LookupOrCreate_kind_bit_mismatch (c : Collaborators σ ε N A) (name : String)
    (w : World σ N A) (folderTypeString : FolderType → String) :
    (LookupOrCreate c { Name := name, Private := false, FolderType := FolderType_PRIVATE } w
        = (.error (.errorf "folder type PRIVATE but private bit is false" []), w)
      ∧ (TeamerError.errorf "folder type PRIVATE but private bit is false" [] :
          TeamerError ε).message folderTypeString
        = some "folder type PRIVATE but private bit is false")
    ∧ (LookupOrCreate c { Name := name, Private := true, FolderType := FolderType_PUBLIC } w
        = (.error (.errorf "folder type PUBLIC but private bit is true" []), w)
      ∧ (TeamerError.errorf "folder type PUBLIC but private bit is true" [] :
          TeamerError ε).message folderTypeString
        = some "folder type PUBLIC but private bit is true") := by
  refine ⟨⟨?_, rfl⟩, ?_, rfl⟩
  · simp [LookupOrCreate]
  · simp [LookupOrCreate, FolderType_PRIVATE, FolderType_PUBLIC]

/-! ## The explicit-team path -/

/-- C2: for a TEAM folder with the private bit set whose name parses and whose
team loads, a loaded team that reports itself public makes the resolver fail
with the publicity-mismatch error; no team identity is returned, whatever
the identifier of the loaded team. -/
theorem LookupOrCreate_team_public_mismatch (c : Collaborators σ ε N A) (name : String)
    (w : World σ N A) (teamName : N) (s1 s2 : σ) (team : Team)
    (hparse : c.ParseTeamPrivateKBFSPath w.state name = (.ok teamName, s1))
    (hload : c.Load s1 { Name := c.teamNameString teamName, ForceRepoll := false }
      = (.ok team, s2))
    (hpublic : team.IsPublic = true) :
    (LookupOrCreate c { Name := name, Private := true, FolderType := FolderType_TEAM } w).1
      = .error (.errorf "team publicity mismatch folder:%v != team:%v"
          [.bool false, .bool true]) := by
  simp [LookupOrCreate, lookupTeam, World.record, FolderType_PRIVATE, FolderType_PUBLIC,
    FolderType_TEAM, hparse, hload, hpublic]

/-- Witness of C2 on the stand-in collaborators: the team `open` is public. -/
theorem LookupOrCreate_team_public_mismatch_witness :
    (LookupOrCreate fakeCollaborators
        { Name := "open", Private := true, FolderType := FolderType_TEAM } emptyWorld).1
      = .error (.errorf "team publicity mismatch folder:%v != team:%v"
          [.bool false, .bool true]) :=
  LookupOrCreate_team_public_mismatch fakeCollaborators "open" emptyWorld "open" 1 2
    { ID := "P", IsPublic := true } rfl rfl rfl

/-- C3: whenever the resolver succeeds, the visibility it returns is PRIVATE
if the private bit of the folder is set and PUBLIC if it is not; the
collaborators are arbitrary, so nothing they report enters the visibility. -/
theorem LookupOrCreate_visibility_from_bit (c : Collaborators σ ε N A) (folder : Folder)
    (w : World σ N A) (res : TeamIDWithVisibility)
    (hok : (LookupOrCreate c folder w).1 = .ok res) :
    res.Visibility = if folder.Private then TLFVisibility.PRIVATE else TLFVisibility.PUBLIC := by
  unfold LookupOrCreate lookupOrCreateImplicitTeam lookupTeam at hok
  cases hp : folder.Private <;> simp only [hp] at hok <;>
    (repeat' split at hok) <;> simp_all <;> (subst hok; rfl)

/-- Witness of C3: a successful resolution on the implicit-team path. -/
theorem LookupOrCreate_visibility_from_bit_witness :
    (LookupOrCreate fakeCollaborators
        { Name := "alice,bob", Private := false, FolderType := FolderType_PUBLIC } emptyWorld).1
      = .ok { TeamID := "Ypub", Visibility := TLFVisibility.PUBLIC }
    ∧ TLFVisibility.PUBLIC = (if false then TLFVisibility.PRIVATE else TLFVisibility.PUBLIC) :=
  ⟨rfl, LookupOrCreate_visibility_from_bit fakeCollaborators
    { Name := "alice,bob", Private := false, FolderType := FolderType_PUBLIC } emptyWorld
    { TeamID := "Ypub", Visibility := TLFVisibility.PUBLIC } rfl⟩

/-- C4: a TEAM folder whose private bit is false is refused with the error for
public team folders, whatever its name; the world comes back as it was, so
neither the team-path parser nor the team loader was called. -/
theorem LookupOrCreate_team_public_unsupported (c : Collaborators σ ε N A) (name : String)
    (w : World σ N A) :
    LookupOrCreate c { Name := name, Private := false, FolderType := FolderType_TEAM } w
      = (.error (.errorf "public team git repos not supported" []), w) := by
  simp [LookupOrCreate, lookupTeam, FolderType_PRIVATE, FolderType_PUBLIC, FolderType_TEAM]

/-- C5: for a TEAM folder with the private bit set whose name parses to a team
name, if the loader called on that name returns a team that is not public,
the resolver succeeds with the identifier of that team, unchanged, and the
visibility PRIVATE. -/
theorem LookupOrCreate_team_private_ok (c : Collaborators σ ε N A) (name : String)
    (w : World σ N A) (teamName : N) (s1 s2 : σ) (team : Team)
    (hparse : c.ParseTeamPrivateKBFSPath w.state name = (.ok teamName, s1))
    (hload : c.Load s1 { Name := c.teamNameString teamName, ForceRepoll := false }
      = (.ok team, s2))
    (hprivate : team.IsPublic = false) :
    (LookupOrCreate c { Name := name, Private := true, FolderType := FolderType_TEAM } w).1
      = .ok { TeamID := team.ID, Visibility := TLFVisibility.PRIVATE } := by
  simp [LookupOrCreate, lookupTeam, World.record, FolderType_PRIVATE, FolderType_PUBLIC,
    FolderType_TEAM, hparse, hload, hprivate]

/-- Witness of C5: the folder named `team1`, whose team has identifier `X`. -/
theorem LookupOrCreate_team_private_ok_witness :
    (LookupOrCreate fakeCollaborators
        { Name := "team1", Private := true, FolderType := FolderType_TEAM } emptyWorld).1
      = .ok { TeamID := "X", Visibility := TLFVisibility.PRIVATE } :=
  LookupOrCreate_team_private_ok fakeCollaborators "team1" emptyWorld "team1" 1 2
    { ID := "X", IsPublic := false } rfl rfl rfl

/-! ## The implicit-team path -/

/-- C6: for a folder of type PRIVATE or PUBLIC whose private bit agrees with
its type, if the name parses to `impName`, the formatter turns `impName` into
`lookupName`, and the lookup-or-create service called with `lookupName` and
the negated private bit returns `teamID`, then the resolver succeeds with
`teamID` and the visibility of the private bit; it made exactly three calls,
in this order: parser, formatter, and lookup-or-create with the arguments
`lookupName` and the negated private bit. -/
theorem LookupOrCreate_implicit_ok (c : Collaborators σ ε N A) (folder : Folder)
    (w : World σ N A) (impName : A) (lookupName : String) (teamID : TeamID) (s1 s2 s3 : σ)
    (hkind : (folder.FolderType = FolderType_PRIVATE ∧ folder.Private = true)
      ∨ (folder.FolderType = FolderType_PUBLIC ∧ folder.Private = false))
    (hparse : c.ParseImplicitTeamTLFName w.state folder.Name = (.ok impName, s1))
    (hformat : c.FormatImplicitTeamDisplayName s1 impName = (.ok lookupName, s2))
    (hlookup : c.LookupOrCreateImplicitTeam s2 lookupName (!folder.Private) = (.ok teamID, s3)) :
    LookupOrCreate c folder w
      = (.ok { TeamID := teamID,
               Visibility := if folder.Private then TLFVisibility.PRIVATE
                             else TLFVisibility.PUBLIC },
         { state := s3,
           calls := w.calls ++ [.parseImplicitTeamTLFName folder.Name,
             .formatImplicitTeamDisplayName impName,
             .lookupOrCreateImplicitTeam lookupName (!folder.Private)] }) := by
  rcases hkind with ⟨hk, hp⟩ | ⟨hk, hp⟩ <;>
    simp_all [LookupOrCreate, lookupOrCreateImplicitTeam, World.record, FolderType_PRIVATE,
      FolderType_PUBLIC]

/-- Witness of C6: a PRIVATE folder asks the service for `(name, false)`. -/
theorem LookupOrCreate_implicit_ok_witness :
    LookupOrCreate fakeCollaborators
        { Name := "alice,bob", Private := true, FolderType := FolderType_PRIVATE } emptyWorld
      = (.ok { TeamID := "Y", Visibility := TLFVisibility.PRIVATE },
         { state := 3,
           calls := [.parseImplicitTeamTLFName "alice,bob",
             .formatImplicitTeamDisplayName "alice,bob",
             .lookupOrCreateImplicitTeam "alice,bob" false] }) :=
  LookupOrCreate_implicit_ok fakeCollaborators
    { Name := "alice,bob", Private := true, FolderType := FolderType_PRIVATE } emptyWorld
    "alice,bob" "alice,bob" "Y" 1 2 3 (Or.inl ⟨rfl, rfl⟩) rfl rfl rfl

/-- C7: a folder whose type is none of PRIVATE, PUBLIC and TEAM is refused with
the unrecognized-type error, whose argument is the type of the folder; the
world comes back as it was, so no collaborator was called. The text of the
error ends with what the `String()` method of the type prints. -/
theorem LookupOrCreate_unrecognized_kind (c : Collaborators σ ε N A) (folder : Folder)
    (w : World σ N A) (folderTypeString : FolderType → String)
    (hprivate : folder.FolderType ≠ FolderType_PRIVATE)
    (hpublic : folder.FolderType ≠ FolderType_PUBLIC)
    (hteam : folder.FolderType ≠ FolderType_TEAM) :
    LookupOrCreate c folder w
        = (.error (.errorf "unrecognized folder type: %v" [.folderType folder.FolderType]), w)
      ∧ (TeamerError.errorf "unrecognized folder type: %v" [.folderType folder.FolderType] :
          TeamerError ε).message folderTypeString
        = some ("unrecognized folder type: " ++ folderTypeString folder.FolderType) := by
  constructor
  · simp [LookupOrCreate, hprivate, hpublic, hteam]
  · simp [TeamerError.message, sprintf, FmtArg.render]
    rfl

/-- Witness of C7: the folder type `0`, with either private bit. -/
theorem LookupOrCreate_unrecognized_kind_witness :
    LookupOrCreate fakeCollaborators { Name := "team1", Private := true, FolderType := 0 }
        emptyWorld
      = (.error (.errorf "unrecognized folder type: %v" [.folderType 0]), emptyWorld)
    ∧ (TeamerError.errorf "unrecognized folder type: %v" [.folderType 0] :
          TeamerError String).message (fun _ => "UNKNOWN")
        = some ("unrecognized folder type: " ++ "UNKNOWN") :=
  LookupOrCreate_unrecognized_kind fakeCollaborators
    { Name := "team1", Private := true, FolderType := 0 } emptyWorld (fun _ => "UNKNOWN")
    (by decide) (by decide) (by decide)

/-! ## Failures of the collaborators -/

/-- C8: on the implicit-team path (type PRIVATE or PUBLIC with the matching
bit) the first collaborator that fails decides the outcome, and its error is
returned as it came. If the parser fails with `e`, the result is `e` and the
parser call is the only one made. If the parser succeeds and the formatter
fails with `e`, the result is `e` and the calls are parser, formatter. If
both succeed and lookup-or-create fails with `e`, the result is `e` and the
calls are parser, formatter, lookup-or-create. -/
theorem LookupOrCreate_implicit_first_failure (c : Collaborators σ ε N A) (folder : Folder)
    (w : World σ N A)
    (hkind : (folder.FolderType = FolderType_PRIVATE ∧ folder.Private = true)
      ∨ (folder.FolderType = FolderType_PUBLIC ∧ folder.Private = false)) :
    (∀ (e : ε) (s1 : σ),
        c.ParseImplicitTeamTLFName w.state folder.Name = (.error e, s1) →
        LookupOrCreate c folder w
          = (.error (.collaborator e),
             { state := s1, calls := w.calls ++ [.parseImplicitTeamTLFName folder.Name] }))
    ∧ (∀ (impName : A) (e : ε) (s1 s2 : σ),
        c.ParseImplicitTeamTLFName w.state folder.Name = (.ok impName, s1) →
        c.FormatImplicitTeamDisplayName s1 impName = (.error e, s2) →
        LookupOrCreate c folder w
          = (.error (.collaborator e),
             { state := s2,
               calls := w.calls ++ [.parseImplicitTeamTLFName folder.Name,
                 .formatImplicitTeamDisplayName impName] }))
    ∧ (∀ (impName : A) (lookupName : String) (e : ε) (s1 s2 s3 : σ),
        c.ParseImplicitTeamTLFName w.state folder.Name = (.ok impName, s1) →
        c.FormatImplicitTeamDisplayName s1 impName = (.ok lookupName, s2) →
        c.LookupOrCreateImplicitTeam s2 lookupName (!folder.Private) = (.error e, s3) →
        LookupOrCreate c folder w
          = (.error (.collaborator e),
             { state := s3,
               calls := w.calls ++ [.parseImplicitTeamTLFName folder.Name,
                 .formatImplicitTeamDisplayName impName,
                 .lookupOrCreateImplicitTeam lookupName (!folder.Private)] })) := by
  refine ⟨?_, ?_, ?_⟩
  · intro e s1 hparse
    rcases hkind with ⟨hk, hp⟩ | ⟨hk, hp⟩ <;>
      simp_all [LookupOrCreate, lookupOrCreateImplicitTeam, World.record, FolderType_PRIVATE,
        FolderType_PUBLIC]
  · intro impName e s1 s2 hparse hformat
    rcases hkind with ⟨hk, hp⟩ | ⟨hk, hp⟩ <;>
      simp_all [LookupOrCreate, lookupOrCreateImplicitTeam, World.record, FolderType_PRIVATE,
        FolderType_PUBLIC]
  · intro impName lookupName e s1 s2 s3 hparse hformat hlookup
    rcases hkind with ⟨hk, hp⟩ | ⟨hk, hp⟩ <;>
      simp_all [LookupOrCreate, lookupOrCreateImplicitTeam, World.record, FolderType_PRIVATE,
        FolderType_PUBLIC]

/-- Witness of C8: the empty name fails in the parser, the name `#bad` in the
formatter, the name `offline` in lookup-or-create. -/
theorem LookupOrCreate_implicit_first_failure_witness :
    LookupOrCreate fakeCollaborators
        { Name := "", Private := true, FolderType := FolderType_PRIVATE } emptyWorld
      = (.error (.collaborator "bad implicit name"),
         { state := 1, calls := [.parseImplicitTeamTLFName ""] })
    ∧ LookupOrCreate fakeCollaborators
        { Name := "#bad", Private := false, FolderType := FolderType_PUBLIC } emptyWorld
      = (.error (.collaborator "cannot format"),
         { state := 2,
           calls := [.parseImplicitTeamTLFName "#bad", .formatImplicitTeamDisplayName "#bad"] })
    ∧ LookupOrCreate fakeCollaborators
        { Name := "offline", Private := true, FolderType := FolderType_PRIVATE } emptyWorld
      = (.error (.collaborator "no network"),
         { state := 3,
           calls := [.parseImplicitTeamTLFName "offline",
             .formatImplicitTeamDisplayName "offline",
             .lookupOrCreateImplicitTeam "offline" false] }) :=
  ⟨(LookupOrCreate_implicit_first_failure fakeCollaborators
      { Name := "", Private := true, FolderType := FolderType_PRIVATE } emptyWorld
      (Or.inl ⟨rfl, rfl⟩)).1 "bad implicit name" 1 rfl,
   (LookupOrCreate_implicit_first_failure fakeCollaborators
      { Name := "#bad", Private := false, FolderType := FolderType_PUBLIC } emptyWorld
      (Or.inr ⟨rfl, rfl⟩)).2.1 "#bad" "cannot format" 1 2 rfl rfl,
   (LookupOrCreate_implicit_first_failure fakeCollaborators
      { Name := "offline", Private := true, FolderType := FolderType_PRIVATE } emptyWorld
      (Or.inl ⟨rfl, rfl⟩)).2.2 "offline" "offline" "no network" 1 2 3 rfl rfl rfl⟩

/-- C9: on the explicit-team path (type TEAM, private bit set), if the
team-path parser fails with `e` the result is `e` and the parser call is the
only one made, so the loader is not called; if the parser succeeds and the
loader, called once, fails with `e`, the result is `e`. -/
theorem LookupOrCreate_team_first_failure (c : Collaborators σ ε N A) (name : String)
    (w : World σ N A) :
    (∀ (e : ε) (s1 : σ),
        c.ParseTeamPrivateKBFSPath w.state name = (.error e, s1) →
        LookupOrCreate c { Name := name, Private := true, FolderType := FolderType_TEAM } w
          = (.error (.collaborator e),
             { state := s1, calls := w.calls ++ [.parseTeamPrivateKBFSPath name] }))
    ∧ (∀ (teamName : N) (e : ε) (s1 s2 : σ),
        c.ParseTeamPrivateKBFSPath w.state name = (.ok teamName, s1) →
        c.Load s1 { Name := c.teamNameString teamName, ForceRepoll := false } = (.error e, s2) →
        LookupOrCreate c { Name := name, Private := true, FolderType := FolderType_TEAM } w
          = (.error (.collaborator e),
             { state := s2,
               calls := w.calls ++ [.parseTeamPrivateKBFSPath name,
                 .load { Name := c.teamNameString teamName, ForceRepoll := false }] })) := by
  refine ⟨?_, ?_⟩
  · intro e s1 hparse
    simp [LookupOrCreate, lookupTeam, World.record, FolderType_PRIVATE, FolderType_PUBLIC,
      FolderType_TEAM, hparse]
  · intro teamName e s1 s2 hparse hload
    simp [LookupOrCreate, lookupTeam, World.record, FolderType_PRIVATE, FolderType_PUBLIC,
      FolderType_TEAM, hparse, hload]

/-- Witness of C9: the empty name fails in the team-path parser, the name
`ghost` parses and fails in the loader. -/
theorem LookupOrCreate_team_first_failure_witness :
    LookupOrCreate fakeCollaborators
        { Name := "", Private := true, FolderType := FolderType_TEAM } emptyWorld
      = (.error (.collaborator "bad team path"),
         { state := 1, calls := [.parseTeamPrivateKBFSPath ""] })
    ∧ LookupOrCreate fakeCollaborators
        { Name := "ghost", Private := true, FolderType := FolderType_TEAM } emptyWorld
      = (.error (.collaborator "team not found"),
         { state := 2,
           calls := [.parseTeamPrivateKBFSPath "ghost",
             .load { Name := "ghost", ForceRepoll := false }] }) :=
  ⟨(LookupOrCreate_team_first_failure fakeCollaborators "" emptyWorld).1
      "bad team path" 1 rfl,
   (LookupOrCreate_team_first_failure fakeCollaborators "ghost" emptyWorld).2
      "ghost" "team not found" 1 2 rfl rfl⟩

/-- The calls `lookupTeam` adds to the record: at most one of them is a loader
call, and a loader call has the parsed team name and `ForceRepoll` false. -/
theorem lookupTeam_calls (c : Collaborators σ ε N A) (folder : Folder) (w : World σ N A) :
    (lookupTeam c folder w).2.calls = w.calls ++ callsOf (lookupTeam c folder) w.state
    ∧ (callsOf (lookupTeam c folder) w.state).countP Call.isLoad ≤ 1
    ∧ ∀ arg : LoadTeamArg, Call.load arg ∈ callsOf (lookupTeam c folder) w.state →
        ∃ (teamName : N) (s1 : σ),
          c.ParseTeamPrivateKBFSPath w.state folder.Name = (.ok teamName, s1)
          ∧ arg = { Name := c.teamNameString teamName, ForceRepoll := false } := by
  unfold callsOf lookupTeam
  simp only [World.record]
  cases hp : folder.Private
  · simp [Call.isLoad]
  · rcases hpt : c.ParseTeamPrivateKBFSPath w.state folder.Name with ⟨e | teamName, s1⟩
    · simp [Call.isLoad]
    · rcases hl : c.Load s1 { Name := c.teamNameString teamName, ForceRepoll := false }
        with ⟨e | team, s2⟩
      · simp [Call.isLoad, hl]
      · cases hq : team.IsPublic <;> simp [Call.isLoad, hl, hq]

/-- The calls `lookupOrCreateImplicitTeam` adds to the record: none of them is
a loader call. -/
theorem lookupOrCreateImplicitTeam_calls (c : Collaborators σ ε N A) (folder : Folder)
    (w : World σ N A) :
    (lookupOrCreateImplicitTeam c folder w).2.calls
        = w.calls ++ callsOf (lookupOrCreateImplicitTeam c folder) w.state
    ∧ (callsOf (lookupOrCreateImplicitTeam c folder) w.state).countP Call.isLoad = 0
    ∧ ∀ arg : LoadTeamArg,
        Call.load arg ∉ callsOf (lookupOrCreateImplicitTeam c folder) w.state := by
  unfold callsOf lookupOrCreateImplicitTeam
  simp only [World.record]
  rcases hpi : c.ParseImplicitTeamTLFName w.state folder.Name with ⟨e | impName, s1⟩
  · simp [Call.isLoad]
  · rcases hf : c.FormatImplicitTeamDisplayName s1 impName with ⟨e | lookupName, s2⟩
    · simp [Call.isLoad, hf]
    · rcases hl : c.LookupOrCreateImplicitTeam s2 lookupName (!folder.Private)
        with ⟨e | teamID, s3⟩ <;> simp [Call.isLoad, hf, hl]

/-- C10: in one run of the resolver, started from any world, the calls it adds
to the record contain at most one call of the team loader, and every loader
call in them has as its name the string form of the team name parsed from
the folder name, and `ForceRepoll` false. -/
theorem LookupOrCreate_load_once (c : Collaborators σ ε N A) (folder : Folder)
    (w : World σ N A) :
    (LookupOrCreate c folder w).2.calls
        = w.calls ++ callsOf (LookupOrCreate c folder) w.state
    ∧ (callsOf (LookupOrCreate c folder) w.state).countP Call.isLoad ≤ 1
    ∧ ∀ arg : LoadTeamArg, Call.load arg ∈ callsOf (LookupOrCreate c folder) w.state →
        ∃ (teamName : N) (s1 : σ),
          c.ParseTeamPrivateKBFSPath w.state folder.Name = (.ok teamName, s1)
          ∧ arg = { Name := c.teamNameString teamName, ForceRepoll := false } := by
  have hteam := lookupTeam_calls c folder w
  have himp := lookupOrCreateImplicitTeam_calls c folder w
  unfold callsOf at hteam himp ⊢
  unfold LookupOrCreate
  split_ifs
  · simp
  · exact ⟨himp.1, by rw [himp.2.1]; exact Nat.zero_le 1, fun arg h => absurd h (himp.2.2 arg)⟩
  · simp
  · exact ⟨himp.1, by rw [himp.2.1]; exact Nat.zero_le 1, fun arg h => absurd h (himp.2.2 arg)⟩
  · exact hteam
  · simp

/-! ## Repeated resolution against a counting fake -/

/-- The counting fake is idempotent: asked again for the pair it was just
asked for, it returns the same team and changes nothing. -/
theorem ImplicitTeams.lookupOrCreate_again (newID : Nat → TeamID) (t : ImplicitTeams)
    (lookupName : String) (isPublic : Bool) :
    (t.lookupOrCreate newID lookupName isPublic).2.lookupOrCreate newID lookupName isPublic
      = ((t.lookupOrCreate newID lookupName isPublic).1,
         (t.lookupOrCreate newID lookupName isPublic).2) := by
  unfold ImplicitTeams.lookupOrCreate
  cases h : t.teams.lookup (lookupName, isPublic) with
  | none => simp [List.lookup]
  | some teamID => simp [h]

/-- One request creates at most one team. -/
theorem ImplicitTeams.lookupOrCreate_creations (newID : Nat → TeamID) (t : ImplicitTeams)
    (lookupName : String) (isPublic : Bool) :
    (t.lookupOrCreate newID lookupName isPublic).2.creations ≤ t.creations + 1 := by
  unfold ImplicitTeams.lookupOrCreate
  cases h : t.teams.lookup (lookupName, isPublic) <;> simp

/-- C11: two resolutions in a row of the same PRIVATE folder with the private
bit set, against the counting fake, return the same outcome, so the same
team identifier when they succeed; the fake has created at most one team
over the two calls, and none in the second. When the name parses and
formats, both calls succeed with the same team and visibility PRIVATE. -/
theorem LookupOrCreate_twice_same_team {ε N A : Type}
    (base : Collaborators ImplicitTeams ε N A) (parse : String → Except ε A)
    (format : A → Except ε String) (newID : Nat → TeamID) (name : String)
    (w : World ImplicitTeams N A) :
    (LookupOrCreate (countingFake base parse format newID)
        { Name := name, Private := true, FolderType := FolderType_PRIVATE }
        (LookupOrCreate (countingFake base parse format newID)
          { Name := name, Private := true, FolderType := FolderType_PRIVATE } w).2).1
      = (LookupOrCreate (countingFake base parse format newID)
          { Name := name, Private := true, FolderType := FolderType_PRIVATE } w).1
    ∧ (LookupOrCreate (countingFake base parse format newID)
        { Name := name, Private := true, FolderType := FolderType_PRIVATE }
        (LookupOrCreate (countingFake base parse format newID)
          { Name := name, Private := true, FolderType := FolderType_PRIVATE } w).2).2.state.creations
      = (LookupOrCreate (countingFake base parse format newID)
          { Name := name, Private := true, FolderType := FolderType_PRIVATE } w).2.state.creations
    ∧ (LookupOrCreate (countingFake base parse format newID)
          { Name := name, Private := true, FolderType := FolderType_PRIVATE } w).2.state.creations
      ≤ w.state.creations + 1
    ∧ (∀ (impName : A) (lookupName : String),
        parse name = .ok impName → format impName = .ok lookupName →
        ∃ teamID : TeamID,
          (LookupOrCreate (countingFake base parse format newID)
              { Name := name, Private := true, FolderType := FolderType_PRIVATE } w).1
            = .ok { TeamID := teamID, Visibility := TLFVisibility.PRIVATE }
          ∧ (LookupOrCreate (countingFake base parse format newID)
              { Name := name, Private := true, FolderType := FolderType_PRIVATE }
              (LookupOrCreate (countingFake base parse format newID)
                { Name := name, Private := true, FolderType := FolderType_PRIVATE } w).2).1
            = .ok { TeamID := teamID, Visibility := TLFVisibility.PRIVATE }) := by
  have hagain := ImplicitTeams.lookupOrCreate_again newID w.state
  have hcount := ImplicitTeams.lookupOrCreate_creations newID w.state
  cases hp : parse name with
  | error e =>
    simp [LookupOrCreate, lookupOrCreateImplicitTeam, World.record, countingFake, hp]
  | ok impName =>
    cases hf : format impName with
    | error e =>
      simp [LookupOrCreate, lookupOrCreateImplicitTeam, World.record, countingFake, hp, hf]
      intro impName2 lookupName himp
      subst himp
      simp [hf]
    | ok lookupName =>
      simp [LookupOrCreate, lookupOrCreateImplicitTeam, World.record, countingFake, hp, hf,
        hagain lookupName false, hcount lookupName false]

/-- Witness of C11: from a fake with no team, both calls return `T0` and the
fake has created one team. -/
theorem LookupOrCreate_twice_same_team_witness :
    (LookupOrCreate countingFakeExample
        { Name := "alice,bob", Private := true, FolderType := FolderType_PRIVATE }
        (LookupOrCreate countingFakeExample
          { Name := "alice,bob", Private := true, FolderType := FolderType_PRIVATE }
          { state := { teams := [], creations := 0 }, calls := [] }).2).1
      = .ok { TeamID := "T0", Visibility := TLFVisibility.PRIVATE }
    ∧ (LookupOrCreate countingFakeExample
          { Name := "alice,bob", Private := true, FolderType := FolderType_PRIVATE }
          { state := { teams := [], creations := 0 }, calls := [] }).2.state.creations
      ≤ 0 + 1 :=
  ⟨(LookupOrCreate_twice_same_team noTeams (fun name => .ok name) (fun impName => .ok impName)
      (fun n => if n = 0 then "T0" else "T1") "alice,bob"
      { state := { teams := [], creations := 0 }, calls := [] }).1.trans rfl,
   (LookupOrCreate_twice_same_team noTeams (fun name => .ok name) (fun impName => .ok impName)
      (fun n => if n = 0 then "T0" else "T1") "alice,bob"
      { state := { teams := [], creations := 0 }, calls := [] }).2.2.1⟩

/-! ## What the explicit-team path lets through -/

/-- On a TEAM folder the resolver is `lookupTeam`. -/
theorem LookupOrCreate_of_team (c : Collaborators σ ε N A) (folder : Folder) (w : World σ N A)
    (hkind : folder.FolderType = FolderType_TEAM) :
    LookupOrCreate c folder w = lookupTeam c folder w := by
  simp [LookupOrCreate, hkind, FolderType_PRIVATE, FolderType_PUBLIC, FolderType_TEAM]

/-- When `lookupTeam` succeeds: the private bit is set, the name parsed, the
team loaded, the team is not public, and the result is the identifier of
that team with visibility PRIVATE; and only then. -/
theorem lookupTeam_ok_iff (c : Collaborators σ ε N A) (folder : Folder) (w : World σ N A)
    (res : TeamIDWithVisibility) :
    (lookupTeam c folder w).1 = .ok res ↔
      folder.Private = true ∧ ∃ (teamName : N) (s1 : σ) (team : Team) (s2 : σ),
        c.ParseTeamPrivateKBFSPath w.state folder.Name = (.ok teamName, s1)
        ∧ c.Load s1 { Name := c.teamNameString teamName, ForceRepoll := false } = (.ok team, s2)
        ∧ team.IsPublic = false
        ∧ res = { TeamID := team.ID, Visibility := TLFVisibility.PRIVATE } := by
  unfold lookupTeam
  simp only [World.record]
  cases hp : folder.Private
  · simp
  · rcases hpt : c.ParseTeamPrivateKBFSPath w.state folder.Name with ⟨e | teamName, s1⟩
    · simp
    · rcases hl : c.Load s1 { Name := c.teamNameString teamName, ForceRepoll := false }
        with ⟨e | team, s2⟩
      · simp [hl]
      · cases hq : team.IsPublic
        · constructor
          · intro h
            simp [hl, hq] at h
            exact ⟨rfl, teamName, s1, team, s2, rfl, hl, hq, h.symm⟩
          · rintro ⟨_, teamName2, t1, team2, t2, h1, h2, _, h4⟩
            cases h1
            rw [hl] at h2
            cases h2
            simp [hl, hq, h4]
        · simp [hl, hq]

/-- C12: a TEAM folder resolves exactly when its private bit is set, its name
parses, its team loads, and the loaded team is not public. So in every
successful result for a TEAM folder the team that was loaded has a
publicness equal to the negation of the private bit, and the identifier
returned is that of this team. -/
theorem LookupOrCreate_team_ok_iff (c : Collaborators σ ε N A) (name : String)
    (isPrivate : Bool) (w : World σ N A) :
    ((∃ res : TeamIDWithVisibility,
        (LookupOrCreate c { Name := name, Private := isPrivate, FolderType := FolderType_TEAM }
          w).1 = .ok res) ↔
      isPrivate = true ∧ ∃ (teamName : N) (s1 : σ) (team : Team) (s2 : σ),
        c.ParseTeamPrivateKBFSPath w.state name = (.ok teamName, s1)
        ∧ c.Load s1 { Name := c.teamNameString teamName, ForceRepoll := false } = (.ok team, s2)
        ∧ team.IsPublic = false)
    ∧ ∀ res : TeamIDWithVisibility,
        (LookupOrCreate c { Name := name, Private := isPrivate, FolderType := FolderType_TEAM }
          w).1 = .ok res →
        ∃ (teamName : N) (s1 : σ) (team : Team) (s2 : σ),
          c.ParseTeamPrivateKBFSPath w.state name = (.ok teamName, s1)
          ∧ c.Load s1 { Name := c.teamNameString teamName, ForceRepoll := false }
              = (.ok team, s2)
          ∧ team.IsPublic = (!isPrivate)
          ∧ res.TeamID = team.ID := by
  rw [LookupOrCreate_of_team c _ w rfl]
  constructor
  · constructor
    · rintro ⟨res, hres⟩
      obtain ⟨hp, teamName, s1, team, s2, hpt, hl, hq, _⟩ := (lookupTeam_ok_iff c _ w res).1 hres
      exact ⟨hp, teamName, s1, team, s2, hpt, hl, hq⟩
    · rintro ⟨hp, teamName, s1, team, s2, hpt, hl, hq⟩
      exact ⟨_, (lookupTeam_ok_iff c _ w _).2 ⟨hp, teamName, s1, team, s2, hpt, hl, hq, rfl⟩⟩
  · intro res hres
    obtain ⟨hp, teamName, s1, team, s2, hpt, hl, hq, hr⟩ := (lookupTeam_ok_iff c _ w res).1 hres
    refine ⟨teamName, s1, team, s2, hpt, hl, ?_, ?_⟩
    · have hp2 : isPrivate = true := hp
      simp [hq, hp2]
    · rw [hr]

/-- Witness of C12: the private team `team1` resolves, the public team `open`
does not, and no team resolves when the private bit is not set. -/
theorem LookupOrCreate_team_ok_iff_witness :
    (∃ res : TeamIDWithVisibility,
      (LookupOrCreate fakeCollaborators
        { Name := "team1", Private := true, FolderType := FolderType_TEAM } emptyWorld).1
        = .ok res)
    ∧ ¬ (∃ res : TeamIDWithVisibility,
      (LookupOrCreate fakeCollaborators
        { Name := "team1", Private := false, FolderType := FolderType_TEAM } emptyWorld).1
        = .ok res) :=
  ⟨(LookupOrCreate_team_ok_iff fakeCollaborators "team1" true emptyWorld).1.2
      ⟨rfl, "team1", 1, { ID := "X", IsPublic := false }, 2, rfl, rfl, rfl⟩,
   fun h => Bool.noConfusion
     ((LookupOrCreate_team_ok_iff fakeCollaborators "team1" false emptyWorld).1.1 h).1⟩

/-- C13: a successful resolution of a TEAM folder has visibility PRIVATE, and
it only happens with the private bit set: the assignment of PUBLIC in
`lookupTeam`, guarded by the private bit being false, is never reached on
a run that gets past the publicity check. The same holds of `lookupTeam`
on any folder. -/
theorem LookupOrCreate_team_always_private (c : Collaborators σ ε N A) (folder : Folder)
    (w : World σ N A) (res : TeamIDWithVisibility) :
    (folder.FolderType = FolderType_TEAM → (LookupOrCreate c folder w).1 = .ok res →
      folder.Private = true ∧ res.Visibility = TLFVisibility.PRIVATE)
    ∧ ((lookupTeam c folder w).1 = .ok res →
      folder.Private = true ∧ res.Visibility = TLFVisibility.PRIVATE) := by
  have key : (lookupTeam c folder w).1 = .ok res →
      folder.Private = true ∧ res.Visibility = TLFVisibility.PRIVATE := by
    intro hres
    obtain ⟨hp, _, _, team, _, _, _, _, hr⟩ := (lookupTeam_ok_iff c folder w res).1 hres
    exact ⟨hp, by rw [hr]⟩
  refine ⟨?_, key⟩
  intro hkind hres
  rw [LookupOrCreate_of_team c folder w hkind] at hres
  exact key hres

/-- Witness of C13: the folder `team1` resolves with visibility PRIVATE. -/
theorem LookupOrCreate_team_always_private_witness :
    (LookupOrCreate fakeCollaborators
        { Name := "team1", Private := true, FolderType := FolderType_TEAM } emptyWorld).1
      = .ok { TeamID := "X", Visibility := TLFVisibility.PRIVATE }
    ∧ TLFVisibility.PRIVATE = TLFVisibility.PRIVATE :=
  ⟨rfl, ((LookupOrCreate_team_always_private fakeCollaborators
      { Name := "team1", Private := true, FolderType := FolderType_TEAM } emptyWorld
      { TeamID := "X", Visibility := TLFVisibility.PRIVATE }).1 rfl rfl).2⟩

/-! ## The texts of the errors of the explicit-team path -/

/-- C14, as the spec words it, fails: on the TEAM folder `team1` with the
private bit not set, the text of the error is not the one the spec
quotes. -/
theorem LookupOrCreate_team_public_message_counterexample :
    errorText (fun _ => "")
        (LookupOrCreate fakeCollaborators
          { Name := "team1", Private := false, FolderType := FolderType_TEAM } emptyWorld).1
      ≠ some "public team-backed folders are not supported" := by
  decide

/-- C14, amended: the error returned for a TEAM folder whose private bit is not
set has the text `public team git repos not supported`, whatever the name
and the collaborators. -/
theorem LookupOrCreate_team_public_message (c : Collaborators σ ε N A) (name : String)
    (w : World σ N A) (folderTypeString : FolderType → String) :
    errorText folderTypeString
        (LookupOrCreate c { Name := name, Private := false, FolderType := FolderType_TEAM } w).1
      = some "public team git repos not supported" := by
  rw [LookupOrCreate_of_team c _ w rfl]
  simp [lookupTeam, errorText]
  rfl

/-- When `lookupTeam` fails with the publicity-mismatch error: the private bit
is set, the team was loaded and reports itself public, and the arguments of
the error are `false` and `true`. -/
theorem lookupTeam_mismatch (c : Collaborators σ ε N A) (folder : Folder) (w : World σ N A)
    (args : List FmtArg)
    (herr : (lookupTeam c folder w).1
      = .error (.errorf "team publicity mismatch folder:%v != team:%v" args)) :
    folder.Private = true ∧ ∃ (teamName : N) (s1 : σ) (team : Team) (s2 : σ),
      c.ParseTeamPrivateKBFSPath w.state folder.Name = (.ok teamName, s1)
      ∧ c.Load s1 { Name := c.teamNameString teamName, ForceRepoll := false } = (.ok team, s2)
      ∧ team.IsPublic = true
      ∧ args = [.bool (!folder.Private), .bool team.IsPublic] := by
  unfold lookupTeam at herr
  simp only [World.record] at herr
  cases hp : folder.Private
  · simp [hp] at herr
  · rcases hpt : c.ParseTeamPrivateKBFSPath w.state folder.Name with ⟨e | teamName, s1⟩
    · simp [hp, hpt] at herr
    · rcases hl : c.Load s1 { Name := c.teamNameString teamName, ForceRepoll := false }
        with ⟨e | team, s2⟩
      · simp [hp, hpt, hl] at herr
      · cases hq : team.IsPublic
        · simp [hp, hpt, hl, hq] at herr
        · simp [hp, hpt, hl, hq] at herr
          exact ⟨rfl, teamName, s1, team, s2, rfl, hl, hq, by simp [hq, herr]⟩

/-- C15: whenever the resolver fails with the publicity-mismatch error, the
folder is a TEAM folder with the private bit set and its team was loaded;
the two arguments of the error are the negated private bit of the folder and
the publicness the team reports, which are `false` and `true`; and the text
of the error is `team publicity mismatch folder:false != team:true`. A
folder whose private bit is not set never gets this error. -/
theorem LookupOrCreate_mismatch_text (c : Collaborators σ ε N A) (folder : Folder)
    (w : World σ N A) (args : List FmtArg) (folderTypeString : FolderType → String)
    (herr : (LookupOrCreate c folder w).1
      = .error (.errorf "team publicity mismatch folder:%v != team:%v" args)) :
    folder.FolderType = FolderType_TEAM
    ∧ folder.Private = true
    ∧ (∃ (teamName : N) (s1 : σ) (team : Team) (s2 : σ),
        c.ParseTeamPrivateKBFSPath w.state folder.Name = (.ok teamName, s1)
        ∧ c.Load s1 { Name := c.teamNameString teamName, ForceRepoll := false } = (.ok team, s2)
        ∧ args = [.bool (!folder.Private), .bool team.IsPublic])
    ∧ args = [.bool false, .bool true]
    ∧ errorText folderTypeString (LookupOrCreate c folder w).1
        = some "team publicity mismatch folder:false != team:true" := by
  have hkind : folder.FolderType = FolderType_TEAM := by
    by_contra hne
    unfold LookupOrCreate lookupOrCreateImplicitTeam at herr
    simp only [World.record] at herr
    rcases hpi : c.ParseImplicitTeamTLFName w.state folder.Name with ⟨e | impName, s1⟩
    · split_ifs at herr <;> simp [hpi] at herr
    · rcases hf : c.FormatImplicitTeamDisplayName s1 impName with ⟨e | lookupName, s2⟩
      · split_ifs at herr <;> simp [hpi, hf] at herr
      · rcases hl : c.LookupOrCreateImplicitTeam s2 lookupName (!folder.Private)
          with ⟨e | teamID, s3⟩ <;> split_ifs at herr <;> simp [hpi, hf, hl] at herr
  have herr2 := herr
  rw [LookupOrCreate_of_team c folder w hkind] at herr2
  obtain ⟨hp, teamName, s1, team, s2, hpt, hl, hq, hargs⟩ := lookupTeam_mismatch c folder w args herr2
  have hargs2 : args = [.bool false, .bool true] := by rw [hargs, hp, hq]; rfl
  refine ⟨hkind, hp, ⟨teamName, s1, team, s2, hpt, hl, hargs⟩, hargs2, ?_⟩
  rw [herr, hargs2]
  rfl

/-- Witness of C15: the public team `open` asked for as a private folder. -/
theorem LookupOrCreate_mismatch_text_witness :
    errorText (fun _ => "")
        (LookupOrCreate fakeCollaborators
          { Name := "open", Private := true, FolderType := FolderType_TEAM } emptyWorld).1
      = some "team publicity mismatch folder:false != team:true" :=
  (LookupOrCreate_mismatch_text fakeCollaborators
    { Name := "open", Private := true, FolderType := FolderType_TEAM } emptyWorld
    [.bool false, .bool true] (fun _ => "") rfl).2.2.2.2

/-! ## Each path uses its own collaborators only -/

/-- Every call `lookupOrCreateImplicitTeam` makes is a call of the implicit-team
side. -/
theorem lookupOrCreateImplicitTeam_calls_implicit (c : Collaborators σ ε N A)
    (folder : Folder) (s : σ) :
    ∀ call ∈ callsOf (lookupOrCreateImplicitTeam c folder) s, call.isTeamPath = false := by
  unfold callsOf lookupOrCreateImplicitTeam
  simp only [World.record]
  rcases hpi : c.ParseImplicitTeamTLFName s folder.Name with ⟨e | impName, s1⟩
  · simp [Call.isTeamPath]
  · rcases hf : c.FormatImplicitTeamDisplayName s1 impName with ⟨e | lookupName, s2⟩
    · simp [Call.isTeamPath, hf]
    · rcases hl : c.LookupOrCreateImplicitTeam s2 lookupName (!folder.Private)
        with ⟨e | teamID, s3⟩ <;> simp [Call.isTeamPath, hf, hl]

/-- Every call `lookupTeam` makes is a call of the explicit-team side. -/
theorem lookupTeam_calls_team (c : Collaborators σ ε N A) (folder : Folder) (s : σ) :
    ∀ call ∈ callsOf (lookupTeam c folder) s, call.isImplicit = false := by
  unfold callsOf lookupTeam
  simp only [World.record]
  cases hp : folder.Private
  · simp
  · rcases hpt : c.ParseTeamPrivateKBFSPath s folder.Name with ⟨e | teamName, s1⟩
    · simp [Call.isImplicit]
    · rcases hl : c.Load s1 { Name := c.teamNameString teamName, ForceRepoll := false }
        with ⟨e | team, s2⟩
      · simp [Call.isImplicit, hl]
      · cases hq : team.IsPublic <;> simp [Call.isImplicit, hl, hq]

/-- The outcome of `lookupOrCreateImplicitTeam` is a function of the
implicit-team side of the collaborators. -/
theorem lookupOrCreateImplicitTeam_congr (c1 c2 : Collaborators σ ε N A) (folder : Folder)
    (w : World σ N A)
    (hparse : c1.ParseImplicitTeamTLFName = c2.ParseImplicitTeamTLFName)
    (hformat : c1.FormatImplicitTeamDisplayName = c2.FormatImplicitTeamDisplayName)
    (hlookup : c1.LookupOrCreateImplicitTeam = c2.LookupOrCreateImplicitTeam) :
    lookupOrCreateImplicitTeam c1 folder w = lookupOrCreateImplicitTeam c2 folder w := by
  unfold lookupOrCreateImplicitTeam
  rw [hparse, hformat, hlookup]

/-- The outcome of `lookupTeam` is a function of the explicit-team side of the
collaborators. -/
theorem lookupTeam_congr (c1 c2 : Collaborators σ ε N A) (folder : Folder) (w : World σ N A)
    (hparse : c1.ParseTeamPrivateKBFSPath = c2.ParseTeamPrivateKBFSPath)
    (hname : c1.teamNameString = c2.teamNameString)
    (hload : c1.Load = c2.Load) :
    lookupTeam c1 folder w = lookupTeam c2 folder w := by
  unfold lookupTeam
  rw [hparse, hname, hload]

/-- On a PRIVATE or PUBLIC folder the resolver either refuses the folder
without a call or is `lookupOrCreateImplicitTeam`. -/
theorem LookupOrCreate_of_implicit (c : Collaborators σ ε N A) (folder : Folder)
    (w : World σ N A)
    (hkind : folder.FolderType = FolderType_PRIVATE ∨ folder.FolderType = FolderType_PUBLIC) :
    (∃ e, LookupOrCreate c folder w = (.error (.errorf e []), w)
        ∧ ∀ d : Collaborators σ ε N A, LookupOrCreate d folder w = (.error (.errorf e []), w))
    ∨ (LookupOrCreate c folder w = lookupOrCreateImplicitTeam c folder w
        ∧ ∀ d : Collaborators σ ε N A,
            LookupOrCreate d folder w = lookupOrCreateImplicitTeam d folder w) := by
  rcases hkind with hk | hk <;> cases hp : folder.Private
  · exact Or.inl ⟨"folder type PRIVATE but private bit is false",
      by simp [LookupOrCreate, hk, hp], fun d => by simp [LookupOrCreate, hk, hp]⟩
  · exact Or.inr ⟨by simp [LookupOrCreate, hk, hp], fun d => by simp [LookupOrCreate, hk, hp]⟩
  · exact Or.inr ⟨by simp [LookupOrCreate, hk, hp, FolderType_PRIVATE, FolderType_PUBLIC],
      fun d => by simp [LookupOrCreate, hk, hp, FolderType_PRIVATE, FolderType_PUBLIC]⟩
  · exact Or.inl ⟨"folder type PUBLIC but private bit is true",
      by simp [LookupOrCreate, hk, hp, FolderType_PRIVATE, FolderType_PUBLIC],
      fun d => by simp [LookupOrCreate, hk, hp, FolderType_PRIVATE, FolderType_PUBLIC]⟩

/-- C16: on a PRIVATE or PUBLIC folder no call of the team-path parser or the
team loader is recorded, and two sets of collaborators with the same
implicit-name parser, formatter and lookup-or-create give the same outcome
(result, collaborator state and call record), however their explicit-team
sides differ. On a TEAM folder no call of the implicit-name parser, the
formatter or lookup-or-create is recorded, and two sets of collaborators
with the same team-path parser, team-name printer and loader give the same
outcome, however their implicit-team sides differ. -/
theorem LookupOrCreate_strategy_isolation (c1 c2 : Collaborators σ ε N A) (folder : Folder)
    (w : World σ N A) :
    ((folder.FolderType = FolderType_PRIVATE ∨ folder.FolderType = FolderType_PUBLIC) →
      (∀ call ∈ callsOf (LookupOrCreate c1 folder) w.state, call.isTeamPath = false)
      ∧ (c1.ParseImplicitTeamTLFName = c2.ParseImplicitTeamTLFName →
          c1.FormatImplicitTeamDisplayName = c2.FormatImplicitTeamDisplayName →
          c1.LookupOrCreateImplicitTeam = c2.LookupOrCreateImplicitTeam →
          LookupOrCreate c1 folder w = LookupOrCreate c2 folder w))
    ∧ (folder.FolderType = FolderType_TEAM →
      (∀ call ∈ callsOf (LookupOrCreate c1 folder) w.state, call.isImplicit = false)
      ∧ (c1.ParseTeamPrivateKBFSPath = c2.ParseTeamPrivateKBFSPath →
          c1.teamNameString = c2.teamNameString →
          c1.Load = c2.Load →
          LookupOrCreate c1 folder w = LookupOrCreate c2 folder w)) := by
  constructor
  · intro hkind
    constructor
    · rcases LookupOrCreate_of_implicit c1 folder { state := w.state, calls := [] } hkind
        with ⟨e, he, _⟩ | ⟨he, _⟩
      · intro call hcall
        simp [callsOf, he] at hcall
      · have h := lookupOrCreateImplicitTeam_calls_implicit c1 folder w.state
        unfold callsOf at h ⊢
        rw [he]
        exact h
    · intro hparse hformat hlookup
      rcases LookupOrCreate_of_implicit c1 folder w hkind with ⟨e, he, hall⟩ | ⟨he, hall⟩
      · rw [he, hall c2]
      · rw [he, hall c2]
        exact lookupOrCreateImplicitTeam_congr c1 c2 folder w hparse hformat hlookup
  · intro hkind
    constructor
    · have h := lookupTeam_calls_team c1 folder w.state
      unfold callsOf at h ⊢
      rw [LookupOrCreate_of_team c1 folder _ hkind]
      exact h
    · intro hparse hname hload
      rw [LookupOrCreate_of_team c1 folder w hkind, LookupOrCreate_of_team c2 folder w hkind]
      exact lookupTeam_congr c1 c2 folder w hparse hname hload

/-- Witness of C16: a PRIVATE folder resolves the same way with another
explicit-team side, and a TEAM folder the same way with another implicit-team
side. -/
theorem LookupOrCreate_strategy_isolation_witness :
    LookupOrCreate fakeCollaborators
        { Name := "alice,bob", Private := true, FolderType := FolderType_PRIVATE } emptyWorld
      = LookupOrCreate fakeOtherTeamSide
        { Name := "alice,bob", Private := true, FolderType := FolderType_PRIVATE } emptyWorld
    ∧ LookupOrCreate fakeCollaborators
        { Name := "team1", Private := true, FolderType := FolderType_TEAM } emptyWorld
      = LookupOrCreate fakeOtherImplicitSide
        { Name := "team1", Private := true, FolderType := FolderType_TEAM } emptyWorld :=
  ⟨((LookupOrCreate_strategy_isolation fakeCollaborators fakeOtherTeamSide
      { Name := "alice,bob", Private := true, FolderType := FolderType_PRIVATE } emptyWorld).1
      (Or.inl rfl)).2 rfl rfl rfl,
   ((LookupOrCreate_strategy_isolation fakeCollaborators fakeOtherImplicitSide
      { Name := "team1", Private := true, FolderType := FolderType_TEAM } emptyWorld).2
      rfl).2 rfl rfl rfl⟩

end Git
